import Mathlib

/-!
Verification of the capability-scoped tool router of `site_bot_engine.py`.

The SQLite store is modelled as lists of rows; every `REAL` value the program
ever stores is a small integral float (99.0, 499.0, 198.0), hence exactly
representable, and is modelled as `Rat`.  Database-reading tools are modelled
in state-passing style `Store → String × Store` so that "read leaves the store
unchanged" is a provable fact rather than an assumption.
-/

/-- A row of the `products` table:
`(id INTEGER PRIMARY KEY, name TEXT, stock INTEGER, price REAL)` (line 20). -/
structure Product where
  id : Nat
  name : String
  stock : Nat
  price : Rat
deriving DecidableEq

/-- A row of the `orders` table:
`(id INTEGER PRIMARY KEY, user_id TEXT, status TEXT, total REAL)` (line 21). -/
structure Order where
  id : Nat
  user_id : String
  status : String
  total : Rat
deriving DecidableEq

/-- The in-memory database: both tables, rows in insertion (= rowid) order. -/
structure Store where
  products : List Product
  orders : List Order
deriving DecidableEq

/-- The database state `get_db_connection` builds: tables created and seeded
(lines 14-30). -/
def get_db_connection : Store :=
  { products := [⟨1, "AI Widget Pro", 50, 99⟩, ⟨2, "Neural Chip", 10, 499⟩],
    orders := [⟨101, "client_alice", "Shipped", 99⟩,
               ⟨102, "client_bob", "Processing", 499⟩,
               ⟨103, "client_alice", "Delivered", 198⟩] }

/-- `KNOWLEDGE_BASE` (lines 36-42), a triple-quoted literal with leading and
trailing newline. -/
def KNOWLEDGE_BASE : String :=
  "\nWe are \x27FutureTech Solutions\x27.\nOpen Mon-Fri, 9am-5pm.\nContact: support@futuretech.com.\nWe sell AI hardware for enthusiasts.\nReturns are accepted within 30 days.\n"

/-- `search_knowledge_base(query)` (lines 45-46): ignores `query`, returns the
static text. -/
def search_knowledge_base (query : String) : String :=
  KNOWLEDGE_BASE

/-- How a Python f-string renders one of the program's floats.  Every float the
program stores is integral, and `repr` of an integral float appends `.0`. -/
def pyFloatRepr (q : Rat) : String :=
  if q.den = 1 then toString q.num ++ ".0" else toString q

/-- The rows fetched by
`SELECT id, status, total FROM orders WHERE user_id=?` (line 50):
exactly the orders whose `user_id` column equals the bound parameter,
in table order. -/
def selectOrdersByUser (user_id : String) (s : Store) : List Order :=
  s.orders.filter (fun o => o.user_id == user_id)

/-- `get_my_orders(user_id)` (lines 48-54): fetches the caller's rows and
formats them; the literal string `"No orders found."` when the result set is
empty.  A `SELECT` writes nothing, so the store is returned unchanged. -/
def get_my_orders (user_id : String) (s : Store) : String × Store :=
  if (selectOrdersByUser user_id s).isEmpty then ("No orders found.", s)
  else ("Found " ++ toString (selectOrdersByUser user_id s).length ++ " orders: " ++
    String.intercalate ", " ((selectOrdersByUser user_id s).map (fun r =>
      "Order #" ++ toString r.id ++ " (" ++ r.status ++ ") - $" ++ pyFloatRepr r.total)), s)

/-- The row fetched by `SELECT SUM(total), COUNT(*) FROM orders` (line 57).
SQL `SUM` over zero rows is NULL, modelled as `none`. -/
def sqlSumCount (s : Store) : Option Rat × Nat :=
  (if s.orders.isEmpty then none else some ((s.orders.map Order.total).sum),
   s.orders.length)

/-- Python f-string rendering of the `SUM` column: SQL NULL arrives as Python
`None` and prints as the text `None`. -/
def pyOptFloatRepr : Option Rat → String
  | none => "None"
  | some q => pyFloatRepr q

/-- `get_admin_sales_report()` (lines 56-59). -/
def get_admin_sales_report (s : Store) : String × Store :=
  ("Total Revenue: $" ++ pyOptFloatRepr (sqlSumCount s).1 ++
     ", Total Orders: " ++ toString (sqlSumCount s).2, s)

/-- `check_inventory()` (lines 61-63): Python `str` of the fetched list of
`(name, stock)` tuples. -/
def check_inventory (s : Store) : String × Store :=
  ("[" ++ String.intercalate ", " (s.products.map (fun p =>
      "(\x27" ++ p.name ++ "\x27, " ++ toString p.stock ++ ")")) ++ "]", s)

/-- The error taxonomy named by the specification (its section 7).  The source
defines no exception classes at all; this type exists only so the claims that
certain inputs "fail with" one of these errors can be stated and compared with
what the source actually does. -/
inductive PyError where
  | UnknownRoleError
  | MissingIdentityError
deriving DecidableEq

/-- A tool value placed in the `tools` list handed to the model backend.  The
Client branch defines `safe_get_orders`, a zero-parameter function whose bound
identity is the value `current_user_id` holds when the router runs; the
constructor records that binding as data.  The other three tools carry no
binding. -/
inductive Tool where
  | search_knowledge_base
  | safe_get_orders (bound_user_id : String)
  | get_admin_sales_report
  | check_inventory
deriving DecidableEq

/-- `safe_get_orders()` (lines 136-137): declares no parameters and calls
`get_my_orders` on the router-time `current_user_id`. -/
def safe_get_orders (current_user_id : String) (s : Store) : String × Store :=
  get_my_orders current_user_id s

/-- One automatic function call performed by the backend: `model_args` is the
argument vector the model chose to supply.  Only `search_knowledge_base(query)`
declares a parameter; `safe_get_orders`, `get_admin_sales_report` and
`check_inventory` declare none, so for them the model-supplied vector is
ignored entirely. -/
def invokeTool (t : Tool) (model_args : List String) (s : Store) : String × Store :=
  match t with
  | .search_knowledge_base => (search_knowledge_base (model_args.headD ""), s)
  | .safe_get_orders bound_user_id => safe_get_orders bound_user_id s
  | .get_admin_sales_report => get_admin_sales_report s
  | .check_inventory => check_inventory s

/-- `base_identity` (lines 124-129), parametrised by the formatted current
time `now_str`. -/
def base_identity (now_str : String) : String :=
  "\n    Current Day/Time: " ++ now_str ++
    ". \n    You represent \x27FutureTech Solutions\x27.\n    CRITICAL: For questions about hours, policies, or contact info, you MUST use the \x27search_knowledge_base\x27 tool. \n    Do not guess.\n    "

/-- The router (lines 116-143): starting from `tools = []`, `sys_instruct = ""`,
the if/elif chain on `user_role` fills both.  Python code may raise, so the
embedding returns `Except`; this branch contains no raise and no role check
beyond the three equality tests, so every input — recognised role or not —
reaches `Except.ok`. -/
def route (now_str user_role current_user_id : String) :
    Except PyError (List Tool × String) :=
  if user_role = "visitor" then
    .ok ([.search_knowledge_base],
      base_identity now_str ++ " You are a Receptionist. Answer general questions. Do not discuss specific orders.")
  else if user_role = "client" then
    .ok ([.search_knowledge_base, .safe_get_orders current_user_id],
      base_identity now_str ++ " You are a Support Agent helping " ++ current_user_id ++ ". You can check their orders.")
  else if user_role = "admin" then
    .ok ([.search_knowledge_base, .get_admin_sales_report, .check_inventory],
      base_identity now_str ++ " You are the General Manager. You have full access.")
  else
    .ok ([], "")

/-- The tool list of a router outcome; a failed router binds no tools. -/
def routedTools (r : Except PyError (List Tool × String)) : List Tool :=
  match r with
  | .ok p => p.1
  | .error _ => []

/-- Lines 84-95: the sidebar selection fixes `(user_role, current_user_id)`
before the router runs; neither is reassigned later in the script run. -/
def script_identity (role_selection : String) : String × String :=
  if role_selection = "Client (Alice)" then ("client", "client_alice")
  else if role_selection = "Admin" then ("admin", "admin")
  else ("visitor", "guest")

set_option maxRecDepth 20000

/-- C1: Scoping invariant — for any two distinct identities A ≠ B under the Client
role, the SELECT performed on behalf of the session bound to A fetches only rows
owned by A and never a row owned by B, and invoking the bound my-orders tool equals
`get_my_orders` at the bound identity whatever argument vector the model supplies
(the tool declares zero parameters, so the model cannot pass an identity). -/
theorem C1_scoping_invariant (s : Store) (A B : String) (h : A ≠ B) (args : List String) :
    (∀ o ∈ selectOrdersByUser A s, o.user_id = A ∧ o.user_id ≠ B) ∧
    invokeTool (Tool.safe_get_orders A) args s = get_my_orders A s := by
  refine ⟨?_, rfl⟩
  intro o ho
  simp only [selectOrdersByUser, List.mem_filter, beq_iff_eq] at ho
  exact ⟨ho.2, by rw [ho.2]; exact h⟩

/-- C1 witness: the seeded store, identities client_alice and client_bob, and a model
argument vector that explicitly names client_bob. -/
theorem C1_scoping_invariant_witness :
    (∀ o ∈ selectOrdersByUser "client_alice" get_db_connection,
        o.user_id = "client_alice" ∧ o.user_id ≠ "client_bob") ∧
    invokeTool (Tool.safe_get_orders "client_alice") ["client_bob"] get_db_connection =
      get_my_orders "client_alice" get_db_connection :=
  C1_scoping_invariant get_db_connection "client_alice" "client_bob" (by decide) ["client_bob"]

/-- C2 as frozen is false on the code: for the role value "superuser", outside the
enumeration, the router succeeds with zero tools and an empty instruction; it does
not fail with UnknownRoleError — the branch raises nothing. -/
theorem C2_unknown_role_counterexample :
    route "Monday, 14:30" "superuser" "guest" = Except.ok ([], "") ∧
    route "Monday, 14:30" "superuser" "guest" ≠ Except.error PyError.UnknownRoleError :=
  ⟨rfl, fun hc => Except.noConfusion hc⟩

/-- C2 amended: for every role value outside {visitor, client, admin} the router
silently yields zero tools and an empty instruction — never the Admin tool set —
but raises no error at all: the fall-through is `ok ([], "")`, not an
UnknownRoleError. -/
theorem C2_unknown_role_amended (now_str user_role current_user_id : String)
    (h1 : user_role ≠ "visitor") (h2 : user_role ≠ "client") (h3 : user_role ≠ "admin") :
    route now_str user_role current_user_id = Except.ok ([], "") ∧
    routedTools (route now_str user_role current_user_id) ≠
      routedTools (route now_str "admin" current_user_id) ∧
    ∀ e : PyError, route now_str user_role current_user_id ≠ Except.error e := by
  have hr : route now_str user_role current_user_id = Except.ok ([], "") := by
    unfold route
    rw [if_neg h1, if_neg h2, if_neg h3]
  refine ⟨hr, ?_, ?_⟩
  · rw [hr]
    intro hc
    exact List.noConfusion hc
  · intro e
    rw [hr]
    exact fun hc => Except.noConfusion hc

/-- C2 amended witness at the concrete unknown role "superuser". -/
theorem C2_unknown_role_amended_witness :
    route "Monday, 14:30" "superuser" "guest" = Except.ok ([], "") ∧
    routedTools (route "Monday, 14:30" "superuser" "guest") ≠
      routedTools (route "Monday, 14:30" "admin" "guest") ∧
    ∀ e : PyError, route "Monday, 14:30" "superuser" "guest" ≠ Except.error e :=
  C2_unknown_role_amended "Monday, 14:30" "superuser" "guest"
    (by decide) (by decide) (by decide)

/-- C3: identity binding by value, per request — the Client branch constructs the
bound tool with the run's `current_user_id` stored as immutable data inside the Tool
value, and invoking such a tool depends only on that stored identity and the store:
the conclusion mentions no other identity, so a later identity (from a UI role
switch, which starts a fresh script run constructing a fresh Tool value) cannot
alter what the already-constructed tool returns. -/
theorem C3_identity_binding (now_str current_user_id : String) (s : Store)
    (args : List String) :
    routedTools (route now_str "client" current_user_id) =
      [Tool.search_knowledge_base, Tool.safe_get_orders current_user_id] ∧
    invokeTool (Tool.safe_get_orders current_user_id) args s =
      get_my_orders current_user_id s :=
  ⟨rfl, rfl⟩

/-- C4 as frozen is false on the code: with identity client_alice, the Client tool
set contains the bound my-orders tool, which the Admin tool set does not contain, so
Client's tool set is not a subset of Admin's. -/
theorem C4_containment_counterexample :
    Tool.safe_get_orders "client_alice" ∈
      routedTools (route "Monday, 14:30" "client" "client_alice") ∧
    Tool.safe_get_orders "client_alice" ∉
      routedTools (route "Monday, 14:30" "admin" "client_alice") := by
  decide

/-- C4 amended: Visitor's tool set is a strict subset of Client's and of Admin's,
but the chain breaks at the second link: Client's set is not a subset of Admin's,
because the identity-bound my-orders tool is available to Client only, while
Admin's set adds the sales-report and inventory tools that Client lacks. -/
theorem C4_containment_amended (now_str current_user_id : String) :
    routedTools (route now_str "visitor" current_user_id) ⊆
      routedTools (route now_str "client" current_user_id) ∧
    Tool.safe_get_orders current_user_id ∈
      routedTools (route now_str "client" current_user_id) ∧
    Tool.safe_get_orders current_user_id ∉
      routedTools (route now_str "visitor" current_user_id) ∧
    routedTools (route now_str "visitor" current_user_id) ⊆
      routedTools (route now_str "admin" current_user_id) ∧
    Tool.get_admin_sales_report ∈ routedTools (route now_str "admin" current_user_id) ∧
    Tool.get_admin_sales_report ∉ routedTools (route now_str "client" current_user_id) ∧
    Tool.safe_get_orders current_user_id ∉
      routedTools (route now_str "admin" current_user_id) := by
  refine ⟨?_, ?_, ?_, ?_, ?_, ?_, ?_⟩ <;>
    simp [route, routedTools, List.subset_def]

/-- C4 amended witness at a concrete time string and identity. -/
theorem C4_containment_amended_witness :
    routedTools (route "Monday, 14:30" "visitor" "client_alice") ⊆
      routedTools (route "Monday, 14:30" "client" "client_alice") ∧
    Tool.safe_get_orders "client_alice" ∈
      routedTools (route "Monday, 14:30" "client" "client_alice") ∧
    Tool.safe_get_orders "client_alice" ∉
      routedTools (route "Monday, 14:30" "visitor" "client_alice") ∧
    routedTools (route "Monday, 14:30" "visitor" "client_alice") ⊆
      routedTools (route "Monday, 14:30" "admin" "client_alice") ∧
    Tool.get_admin_sales_report ∈
      routedTools (route "Monday, 14:30" "admin" "client_alice") ∧
    Tool.get_admin_sales_report ∉
      routedTools (route "Monday, 14:30" "client" "client_alice") ∧
    Tool.safe_get_orders "client_alice" ∉
      routedTools (route "Monday, 14:30" "admin" "client_alice") :=
  C4_containment_amended "Monday, 14:30" "client_alice"

/-- C5 as frozen is false on the code: a Client request with the empty identity does
not fail with MissingIdentityError; the router succeeds and binds two tools, the
my-orders tool bound to the empty identity. -/
theorem C5_missing_identity_counterexample :
    route "Monday, 14:30" "client" "" ≠ Except.error PyError.MissingIdentityError ∧
    routedTools (route "Monday, 14:30" "client" "") =
      [Tool.search_knowledge_base, Tool.safe_get_orders ""] :=
  ⟨fun hc => Except.noConfusion hc, rfl⟩

/-- C5 amended: the router performs no identity validation at all — a Client or
Admin request with the empty identity succeeds, the Client branch binding the
my-orders tool to the empty identity, and no error of any kind is produced;
no MissingIdentityError exists in the code. -/
theorem C5_missing_identity_amended (now_str : String) :
    routedTools (route now_str "client" "") =
      [Tool.search_knowledge_base, Tool.safe_get_orders ""] ∧
    routedTools (route now_str "admin" "") =
      [Tool.search_knowledge_base, Tool.get_admin_sales_report, Tool.check_inventory] ∧
    (∀ e : PyError, route now_str "client" "" ≠ Except.error e) ∧
    (∀ e : PyError, route now_str "admin" "" ≠ Except.error e) :=
  ⟨rfl, rfl, fun _ hc => Except.noConfusion hc, fun _ hc => Except.noConfusion hc⟩

/-- C5 amended witness at a concrete time string. -/
theorem C5_missing_identity_amended_witness :
    routedTools (route "Monday, 14:30" "client" "") =
      [Tool.search_knowledge_base, Tool.safe_get_orders ""] ∧
    routedTools (route "Monday, 14:30" "admin" "") =
      [Tool.search_knowledge_base, Tool.get_admin_sales_report, Tool.check_inventory] ∧
    (∀ e : PyError, route "Monday, 14:30" "client" "" ≠ Except.error e) ∧
    (∀ e : PyError, route "Monday, 14:30" "admin" "" ≠ Except.error e) :=
  C5_missing_identity_amended "Monday, 14:30"

/-- C6: No-orders case — whenever the bound identity owns zero rows of the orders
table, `get_my_orders` returns the explicit literal "No orders found.". -/
theorem C6_no_orders (user_id : String) (s : Store)
    (h : selectOrdersByUser user_id s = []) :
    (get_my_orders user_id s).1 = "No orders found." := by
  unfold get_my_orders
  rw [h]
  rfl

/-- C6 witness: identity client_carol owns nothing in the seeded store. -/
theorem C6_no_orders_witness :
    selectOrdersByUser "client_carol" get_db_connection = [] ∧
    (get_my_orders "client_carol" get_db_connection).1 = "No orders found." :=
  ⟨by decide, C6_no_orders "client_carol" get_db_connection (by decide)⟩

/-- C7: Seeded-scenario correctness — on the seeded store, `get_my_orders` bound to
client_alice yields exactly the summary naming orders 101 (Shipped) and 103
(Delivered); the summary contains both id-with-status fragments, never mentions 102,
and the totals of the fetched rows sum to 297. -/
theorem C7_seeded_scenario :
    (get_my_orders "client_alice" get_db_connection).1 =
      "Found 2 orders: Order #101 (Shipped) - $99.0, Order #103 (Delivered) - $198.0" ∧
    "Order #101 (Shipped)".toList <:+:
      ((get_my_orders "client_alice" get_db_connection).1).toList ∧
    "Order #103 (Delivered)".toList <:+:
      ((get_my_orders "client_alice" get_db_connection).1).toList ∧
    ¬ ("102".toList <:+: ((get_my_orders "client_alice" get_db_connection).1).toList) ∧
    ((selectOrdersByUser "client_alice" get_db_connection).map Order.total).sum = 297 := by
  refine ⟨rfl, by decide, by decide, by decide, ?_⟩
  have h : selectOrdersByUser "client_alice" get_db_connection =
      [⟨101, "client_alice", "Shipped", 99⟩, ⟨103, "client_alice", "Delivered", 198⟩] := by
    decide
  rw [h]
  norm_num

/-- C8: Knowledge search is a total constant function — every query returns the full
static knowledge text, independent of the query. -/
theorem C8_search_constant (query : String) :
    search_knowledge_base query = KNOWLEDGE_BASE ∧
    search_knowledge_base query = search_knowledge_base "" :=
  ⟨rfl, rfl⟩

/-- C9: Idempotent read — the sales report leaves the store unchanged, so a second
call with no intervening writes returns the identical report (same SUM and COUNT). -/
theorem C9_idempotent_report (s : Store) :
    (get_admin_sales_report s).2 = s ∧
    (get_admin_sales_report ((get_admin_sales_report s).2)).1 =
      (get_admin_sales_report s).1 :=
  ⟨rfl, rfl⟩

/-- C10: Empty-store sales report — with zero rows in the orders table, SQL SUM is
NULL, which the f-string renders as the text "None": the report is the exact string
"Total Revenue: $None, Total Orders: 0", not a numeric zero. -/
theorem C10_empty_store_report (s : Store) (h : s.orders = []) :
    (get_admin_sales_report s).1 = "Total Revenue: $None, Total Orders: 0" := by
  unfold get_admin_sales_report sqlSumCount
  rw [h]
  rfl

/-- C10 witness: the store with seeded products and an empty orders table. -/
theorem C10_empty_store_report_witness :
    (Store.mk [⟨1, "AI Widget Pro", 50, 99⟩, ⟨2, "Neural Chip", 10, 499⟩] []).orders
      = [] ∧
    (get_admin_sales_report
        (Store.mk [⟨1, "AI Widget Pro", 50, 99⟩, ⟨2, "Neural Chip", 10, 499⟩] [])).1 =
      "Total Revenue: $None, Total Orders: 0" :=
  ⟨rfl, C10_empty_store_report
    (Store.mk [⟨1, "AI Widget Pro", 50, 99⟩, ⟨2, "Neural Chip", 10, 499⟩] []) rfl⟩
